import Mathlib

/-!
# Verification of the STEDI model-refinement notebook
  (`src/notebooks/week5/lab_5_5_model_refinement_instructor.py`)

A shallow embedding of the notebook's procedural logic:

* `load_or_create_demo_data` — load the four transformed dataset artifacts
  from storage, falling back to a synthetic `make_classification` dataset
  (seed 42) when a file is missing (`FileNotFoundError`); any other load
  error propagates.
* `safe_load_model` — load the persisted best model, falling back to a
  caller-supplied default on *any* exception (the source catches `Exception`).
* the Section-1 fit guard — fit the resolved model only when it is an
  unfitted `RandomForestClassifier`.
* `GridSearchCV`-style exhaustive grid search with k-fold cross-validation
  (library call, modelled from its documented contract).
* the Section-6 compare-and-persist step — overwrite the best-model file
  iff the candidate's test accuracy is ≥ the incumbent's.

File contents are explicit `FileState`s (absent / corrupt / good value).
Python exceptions are an explicit error type.  NumPy's randomness is
modelled by a deterministic pseudo-random stream: every routine that
consumes randomness takes the explicit `random_state` (an `Option Nat`,
`none` meaning "use the ambient global generator") together with the
ambient global-generator state, mirroring NumPy's seeding discipline.
Real-valued sampling (Gaussian feature draws) is modelled by an integer
congruential stream, and NumPy's shuffles by a seed-determined rotation
permutation: the claims under verification depend only on shapes, label
multiplicities, determinism, and the fact that a shuffle is a permutation
determined by its seed, never on the numeric distribution of the draws.
-/

namespace Stedi

/-- Linear-congruential step standing in for NumPy's PRNG stream. -/
def lcg (s : Nat) : Nat := (1103515245 * s + 12345) % 2147483648

/-- Derive the generator state actually used by a routine: an explicit
`random_state` seed wins; otherwise the ambient global generator state is
consumed (NumPy's behaviour when `random_state=None`). -/
def deriveRng : Option Nat → Nat → Nat
  | some s, _ => lcg s
  | none, g => lcg g

/-- State of one file at a storage path: absent, present-but-malformed, or
present with a well-formed value. -/
inductive FileState (α : Type) where
  | absent
  | corrupt
  | good (v : α)
deriving DecidableEq, Repr

/-- The Python exceptions relevant to the notebook. -/
inductive PyError where
  | fileNotFound   -- FileNotFoundError
  | valueError     -- ValueError (scikit-learn configuration errors)
  | otherError     -- any other exception (e.g. corrupt pickle)
deriving DecidableEq, Repr

/-- `np.load` / `joblib.load` on a file: a missing file raises
`FileNotFoundError`, a malformed file raises some other exception, a
well-formed file yields its value. -/
def loadFile {α : Type} : FileState α → Except PyError α
  | .absent => .error .fileNotFound
  | .corrupt => .error .otherError
  | .good v => .ok v

/-- A feature row (one sample's transformed features). -/
abbrev Row := List Int

/-- NumPy shuffle, modelled as a seed-determined rotation (a permutation of
the list determined by the generator state). -/
def npShuffle (s : Nat) (l : List α) : List α :=
  l.drop (s % (l.length + 1)) ++ l.take (s % (l.length + 1))

/-- `make_classification`'s per-cluster sample counts:
`int(n_samples * weights[k % n_classes] / n_clusters_per_class)` for each
cluster, then the shortfall is distributed round-robin over the clusters. -/
def incAt (l : List Nat) (i : Nat) : List Nat :=
  l.set i (l.getD i 0 + 1)

/-- Round-robin distribution of `d` leftover samples: iteration `i` of the
source's `for i in range(...)` loop increments cluster `i % len`. -/
def addRoundRobin (l : List Nat) : Nat → List Nat
  | 0 => l
  | d + 1 => incAt (addRoundRobin l d) (d % l.length)

def clusterSizes (n_samples : Nat) (weights : List ℚ) (n_classes cpc : Nat) :
    List Nat :=
  let n_clusters := n_classes * cpc
  let base := (List.range n_clusters).map (fun k =>
    let w := weights.getD (k % n_classes) 0
    n_samples * w.num.toNat / (w.den * cpc))
  addRoundRobin base (n_samples - base.sum)

/-- Evaluate a `Nat` to a literal before continuing (matching on it forces
the reduction), so that iterated generator states do not pile up as nested
unevaluated terms during kernel evaluation. -/
def forceNat (n : Nat) (k : Nat → α) : α :=
  match n with
  | 0 => k 0
  | m + 1 => k (m + 1)

/-- One pseudo-random feature row of width `w` (stands in for the Gaussian
draws), accumulator form so the kernel evaluates it iteratively. -/
def randRowAux : Nat → Nat → Row → Row × Nat
  | s, 0, acc => (acc.reverse, s)
  | s, w + 1, acc =>
      forceNat (lcg s)
        (fun s' => randRowAux s' w ((((s % 201 : Nat) : Int) - 100) :: acc))

/-- One pseudo-random feature row of width `w`, together with the advanced
generator state. -/
def randRow (s w : Nat) : Row × Nat := randRowAux s w []

/-- `count` pseudo-random rows of width `w`, accumulator form. -/
def randRowsAux : Nat → Nat → Nat → List Row → List Row × Nat
  | s, 0, _, acc => (acc.reverse, s)
  | s, c + 1, w, acc =>
      forceNat (randRow s w).2
        (fun s' => randRowsAux s' c w ((randRow s w).1 :: acc))

/-- `count` pseudo-random rows of width `w`. -/
def randRows (s count w : Nat) : List Row × Nat := randRowsAux s count w []

/-- Shallow embedding of `sklearn.datasets.make_classification`: per-cluster
counts from the class weights, labels `k % n_classes` per cluster, feature
rows drawn from the seeded stream, then `X` and `y` shuffled in unison. -/
def make_classification (n_samples n_features n_classes cpc : Nat)
    (weights : List ℚ) (random_state : Option Nat) (g : Nat) :
    List Row × List Nat :=
  let r := deriveRng random_state g
  let sizes := clusterSizes n_samples weights n_classes cpc
  let y_pre : List Nat :=
    ((List.range (n_classes * cpc)).map
      (fun k => List.replicate (sizes.getD k 0) (k % n_classes))).flatten
  let p := randRows r y_pre.length n_features
  (npShuffle p.2 p.1, npShuffle p.2 y_pre)

/-- `np.unique` on a label vector: the distinct values in increasing order. -/
def npUnique (l : List Nat) : List Nat :=
  (List.range (l.foldl max 0 + 1)).filter (fun v => l.contains v)

/-- scikit-learn's `_approximate_mode(class_counts, n_draws, rng)`: floor each
class's exact continuous share `n_draws * count / total` of the draws, then
hand the leftover draws to the classes with the largest fractional remainders
(over the common denominator `total` the remainders are the products mod
`total`, so the integer arithmetic is exact). The source breaks exact
remainder ties with `rng.choice`; the tie-break is modelled by index order,
which keeps the result a deterministic function of its arguments. -/
def insertDescBy (key : α → Nat) (x : α) : List α → List α
  | [] => [x]
  | y :: ys => if key y < key x then x :: y :: ys else y :: insertDescBy key x ys

/-- Stable sort by decreasing key (insertion sort; structural, so the kernel
can evaluate it). -/
def sortDescBy (key : α → Nat) : List α → List α
  | [] => []
  | x :: xs => insertDescBy key x (sortDescBy key xs)

def approximateMode (class_counts : List Nat) (n_draws : Nat) (_rng : Nat) :
    List Nat :=
  let total := class_counts.sum
  let floored : List Nat := class_counts.map (fun c => n_draws * c / total)
  let need := n_draws - floored.sum
  if need = 0 then floored
  else
    let order := sortDescBy (·.2) ((List.range class_counts.length).map
        (fun i => (i, (n_draws * class_counts.getD i 0) % total)))
    let chosen := (order.take need).map (·.1)
    (List.range class_counts.length).map
      (fun i => floored.getD i 0 + if i ∈ chosen then 1 else 0)

/-- Result quadruple of `train_test_split`. -/
structure SplitOut where
  X_train : List Row
  X_test : List Row
  y_train : List Nat
  y_test : List Nat
deriving DecidableEq, Repr

/-- `StratifiedShuffleSplit._iter_indices`: the (train, test) index lists of
one stratified draw. `n_test = ceil(test_size * n)`, per-class train/test
allocations via `_approximate_mode`, each class's index list permuted by the
seeded generator, and the assembled index lists permuted once more. -/
def stratifiedShuffleIndices (y : List Nat) (test_size : ℚ)
    (random_state : Option Nat) (g : Nat) : List Nat × List Nat :=
  let n := y.length
  let n_test := (n * test_size.num.toNat + (test_size.den - 1)) / test_size.den
  let n_train := n - n_test
  let r := deriveRng random_state g
  let classes := npUnique y
  let counts := classes.map (fun c => y.count c)
  let n_i := approximateMode counts n_train r
  let t_i := approximateMode (List.zipWith (fun a b => a - b) counts n_i) n_test (lcg r)
  let parts : List (List Nat × List Nat) :=
    (List.range classes.length).map (fun j =>
      let idx := (List.range n).filter (fun i => y.getD i 0 == classes.getD j 0)
      let perm := npShuffle (lcg (r + j)) idx
      (perm.take (n_i.getD j 0), (perm.drop (n_i.getD j 0)).take (t_i.getD j 0)))
  (npShuffle (lcg (lcg r)) (parts.map (·.1)).flatten,
   npShuffle (lcg (lcg (lcg r))) (parts.map (·.2)).flatten)

/-- Shallow embedding of `sklearn.model_selection.train_test_split` with
`stratify=y`: draw the stratified index lists, then gather the rows and
labels. -/
def train_test_split (X : List Row) (y : List Nat) (test_size : ℚ)
    (random_state : Option Nat) (g : Nat) : SplitOut :=
  let ti := stratifiedShuffleIndices y test_size random_state g
  { X_train := ti.1.map (fun i => X.getD i [])
    X_test := ti.2.map (fun i => X.getD i [])
    y_train := ti.1.map (fun i => y.getD i 0)
    y_test := ti.2.map (fun i => y.getD i 0) }

/-- The scikit-learn estimator families the notebook instantiates. -/
inductive ModelFamily where
  | randomForest
  | logisticRegression
deriving DecidableEq, Repr

/-- A scikit-learn estimator object: its family, its `random_state`
hyperparameter, and its learned state — `none` before `fit`, and the training
data it was fitted on afterwards (`feature_importances_` etc. exist exactly
when the learned state does). -/
structure SkModel where
  family : ModelFamily
  random_state : Nat
  trainedOn : Option (List Row × List Nat)
deriving DecidableEq, Repr

/-- `estimator.fit(X, y)`: install the learned state. -/
def SkModel.fit (m : SkModel) (X : List Row) (y : List Nat) : SkModel :=
  { m with trainedOn := some (X, y) }

/-- Stand-in for the learned decision function: an opaque deterministic
function of the family, the hyperparameter seed, the stored training data and
the input row (the claims never depend on its numeric quality). -/
def predictImpl (fam : ModelFamily) (seed : Nat) (tr : List Row × List Nat)
    (row : Row) : Nat :=
  (row.foldl (fun a v => a + v.natAbs) (seed + tr.2.length) +
    (match fam with | .randomForest => 0 | .logisticRegression => 1)) % 2

/-- `estimator.predict` on one row (an unfitted estimator is modelled as
predicting the zero class). -/
def SkModel.predict (m : SkModel) (row : Row) : Nat :=
  match m.trainedOn with
  | some tr => predictImpl m.family m.random_state tr row
  | Option.none => 0

/-- `hasattr(m, "feature_importances_")`: true exactly for a fitted
`RandomForestClassifier` (a `LogisticRegression` never has the attribute). -/
def has_feature_importances (m : SkModel) : Bool :=
  m.family == .randomForest && m.trainedOn.isSome

/-- `isinstance(m, RandomForestClassifier)`. -/
def isinstance_rf (m : SkModel) : Bool := m.family == .randomForest

/-- `sklearn.metrics.accuracy_score`: the fraction of exact label matches. -/
def accuracy_score (y_true y_pred : List Nat) : ℚ :=
  (((y_true.zip y_pred).countP (fun p => p.1 == p.2) : ℚ)) / (y_true.length : ℚ)

/-- The relevant slice of `/dbfs/FileStore`: the four transformed-dataset
artifacts and the persisted best model. -/
structure Storage where
  x_train_file : FileState (List Row)
  x_test_file : FileState (List Row)
  y_train_file : FileState (List Nat)
  y_test_file : FileState (List Nat)
  best_model_file : FileState SkModel

/-- The in-memory dataset quadruple the notebook works with. -/
structure Dataset where
  X_train : List Row
  X_test : List Row
  y_train : List Nat
  y_test : List Nat
deriving DecidableEq, Repr

/-- The synthetic fallback bundle: `make_classification(n_samples=400,
n_features=10, n_informative=6, n_redundant=2, n_classes=2,
weights=[0.55, 0.45], random_state=rs)` followed by
`train_test_split(test_size=0.2, random_state=rs, stratify=y)`.
(`n_informative`/`n_redundant` shape only the numeric content of the draws in
the source; the modelled integer stream does not distinguish them.) -/
def syntheticDataset (random_state : Nat) (g : Nat) : Dataset :=
  let p := make_classification 400 10 2 2 [mkRat 11 20, mkRat 9 20]
      (some random_state) g
  let s := train_test_split p.1 p.2 (mkRat 1 5) (some random_state) g
  { X_train := s.X_train, X_test := s.X_test
    y_train := s.y_train, y_test := s.y_test }

/-- `load_or_create_demo_data`: attempt the four artifact loads in source
order inside one `try`; a `FileNotFoundError` anywhere in the block selects
the synthetic fallback, any other exception propagates to the caller. -/
def load_or_create_demo_data (st : Storage) (random_state : Nat) (g : Nat) :
    Except PyError Dataset :=
  match (match loadFile st.x_train_file with
    | .error e => .error e
    | .ok xtr =>
      match loadFile st.x_test_file with
      | .error e => .error e
      | .ok xte =>
        match loadFile st.y_train_file with
        | .error e => .error e
        | .ok ytr =>
          match loadFile st.y_test_file with
          | .error e => .error e
          | .ok yte => Except.ok (Dataset.mk xtr xte ytr yte) :
      Except PyError Dataset) with
  | .ok d => .ok d
  | .error .fileNotFound => .ok (syntheticDataset random_state g)
  | .error e => .error e

/-- `safe_load_model(path, default_model)`: the source's `except Exception`
substitutes the caller-supplied default on **any** load failure. -/
def safe_load_model (file : FileState SkModel) (default_model : SkModel) :
    SkModel :=
  match loadFile file with
  | .ok m => m
  | .error _ => default_model

/-- The default incumbent: `RandomForestClassifier(random_state=42)`,
untrained. -/
def default_rf : SkModel :=
  { family := .randomForest, random_state := 42, trainedOn := Option.none }

/-- Section 1's resolve-then-guard step: load the prior best model (default:
fresh forest), then `fit` it only when it lacks `feature_importances_` and is
a `RandomForestClassifier`. -/
def resolve_and_fit_old_model (st : Storage) (X_train : List Row)
    (y_train : List Nat) : SkModel :=
  let old_model := safe_load_model st.best_model_file default_rf
  if !(has_feature_importances old_model) && isinstance_rf old_model then
    old_model.fit X_train y_train
  else old_model

/-- Section 1's baseline metrics: the resolved (possibly just-fitted) old
model together with its train and test accuracy — both computed only after
the fit guard has run. -/
def section1_metrics (st : Storage) (d : Dataset) : SkModel × ℚ × ℚ :=
  let m := resolve_and_fit_old_model st d.X_train d.y_train
  (m, accuracy_score d.y_train (d.X_train.map m.predict),
      accuracy_score d.y_test (d.X_test.map m.predict))

/-- Section 6's compare-and-persist step: overwrite
`stedi_best_model.pkl` iff `new_test_acc >= old_test_acc`; the returned flag
records which branch was reported. -/
def compare_and_save (old_model new_model : SkModel) (X_test : List Row)
    (y_test : List Nat) (st : Storage) : Storage × Bool :=
  let old_test_acc := accuracy_score y_test (X_test.map old_model.predict)
  let new_test_acc := accuracy_score y_test (X_test.map new_model.predict)
  if new_test_acc ≥ old_test_acc then
    ({ st with best_model_file := .good new_model }, true)
  else (st, false)

/-- Demo fixture: a storage location with nothing persisted (first run). -/
def emptyStorage : Storage :=
  { x_train_file := .absent, x_test_file := .absent,
    y_train_file := .absent, y_test_file := .absent,
    best_model_file := .absent }

/-- Demo fixture: an already-fitted forest, as `joblib.load` would return
after a previous run persisted it. -/
def trained_rf : SkModel := default_rf.fit [[1]] [0]

/-- Demo fixture: a storage location holding only a previously trained best
model. -/
def trainedModelStorage : Storage :=
  { emptyStorage with best_model_file := .good trained_rf }

/-- Demo fixture: all four dataset artifacts present and well-formed. -/
def allGoodStorage : Storage :=
  { x_train_file := .good [[1]], x_test_file := .good [[2]],
    y_train_file := .good [0], y_test_file := .good [1],
    best_model_file := .absent }

/-- Demo fixture: the train-features artifact is present but malformed. -/
def corruptXStorage : Storage :=
  { emptyStorage with x_train_file := .corrupt }

/-! ## GridSearchCV (Section 4)

The notebook delegates the search to `sklearn.model_selection.GridSearchCV`;
the library call is embedded from its documented contract: validate that the
training set can be split into `cv` folds, evaluate every combination in the
Cartesian product of the grid by k-fold cross-validation on the training data
only, pick the first combination attaining the maximal mean validation score
(NumPy `argmax` keeps the first maximum), and refit on the full training set
with that combination. -/

/-- A hyperparameter value: an integer setting or Python's `None`
(`max_depth=None`). -/
inductive PVal where
  | nat (n : Nat)
  | noneV
deriving DecidableEq, Repr

/-- One point of the grid: an assignment of a value to each parameter name. -/
abbrev ParamCombo := List (String × PVal)

/-- The Cartesian product of a parameter grid, in the source's iteration
order. -/
def gridCombos : List (String × List PVal) → List ParamCombo
  | [] => [[]]
  | (k, vs) :: rest =>
      (vs.map (fun v => (gridCombos rest).map (fun c => (k, v) :: c))).flatten

/-- The notebook's refinement grid for `RandomForestClassifier`. -/
def rf_param_grid : List (String × List PVal) :=
  [("n_estimators", [.nat 100, .nat 200]),
   ("max_depth", [.noneV, .nat 10, .nat 20]),
   ("min_samples_leaf", [.nat 1, .nat 2, .nat 4])]

/-- One training sample: a feature row with its label. -/
abbrev Sample := Row × Nat

/-- Start offset of fold `i` of `k` contiguous folds over `n` samples. -/
def foldStart (n k i : Nat) : Nat := i * (n / k) + min i (n % k)

/-- Size of fold `i` (the first `n % k` folds take one extra sample). -/
def foldSize (n k i : Nat) : Nat := n / k + if i < n % k then 1 else 0

/-- The validation block of fold `i`. -/
def foldVal (data : List Sample) (k i : Nat) : List Sample :=
  (data.drop (foldStart data.length k i)).take (foldSize data.length k i)

/-- The complement of fold `i`: the samples trained on in that round. -/
def foldFit (data : List Sample) (k i : Nat) : List Sample :=
  data.take (foldStart data.length k i) ++
    data.drop (foldStart data.length k i + foldSize data.length k i)

/-- Mean k-fold cross-validation score of one combination: fit on each fold's
complement, score on the fold, average. Only `data` — the training partition —
is ever consulted. -/
def cvMeanScore {C M : Type} (k : Nat) (fitWith : C → List Sample → M)
    (score : M → List Sample → ℚ) (data : List Sample) (c : C) : ℚ :=
  (((List.range k).map
    (fun i => score (fitWith c (foldFit data k i)) (foldVal data k i))).sum) / (k : ℚ)

/-- Scan for the first element attaining the maximal value of `f`, keeping
the incumbent on ties (NumPy `argmax` keeps the first maximum). -/
def argmaxGo {C : Type} (f : C → ℚ) (best : C) : List C → C
  | [] => best
  | c :: cs => argmaxGo f (if f c > f best then c else best) cs

/-- First element attaining the maximal value of `f` (NumPy `argmax`);
`none` only on the empty list. -/
def argmaxFirst {C : Type} (f : C → ℚ) : List C → Option C
  | [] => Option.none
  | c :: cs => some (argmaxGo f c cs)

/-- What `GridSearchCV` exposes after `fit`: `best_params_`, `best_score_`,
`best_estimator_`. -/
structure GridSearchOut (C M : Type) where
  best_params : C
  best_score : ℚ
  best_estimator : M

/-- `GridSearchCV(estimator, param_grid, cv, scoring).fit(X_train, y_train)`:
fails with a `ValueError` before any training work when the training set
cannot be split into `cv` folds (or the combination list is empty); otherwise
selects the first combination with maximal mean CV score and refits it on the
full training set. -/
def gridSearchCV_fit {C M : Type} (param_combos : List C) (cv : Nat)
    (fitWith : C → List Sample → M) (score : M → List Sample → ℚ)
    (data : List Sample) : Except PyError (GridSearchOut C M) :=
  if data.length < cv then .error .valueError
  else
    match argmaxFirst (cvMeanScore cv fitWith score data) param_combos with
    | Option.none => .error .valueError
    | some best =>
        .ok { best_params := best
              best_score := cvMeanScore cv fitWith score data best
              best_estimator := fitWith best data }

/-- Demo fixture: a trivial trainer for exercising the grid search. -/
def constFit : ParamCombo → List Sample → Nat := fun _ _ => 0

/-- Demo fixture: a constant scoring criterion. -/
def constScore : Nat → List Sample → ℚ := fun _ _ => 0

/-- Demo fixture: a one-sample training set. -/
def oneSampleData : List Sample := [([], 0)]

/-- Demo fixture: a one-point hyperparameter grid. -/
def onePointGrid : List (String × List PVal) := [("p", [PVal.nat 1])]

/-- Demo fixture: the grid-search output on the one-point grid. -/
def onePointOut : GridSearchOut ParamCombo Nat :=
  { best_params := [("p", PVal.nat 1)]
    best_score := cvMeanScore 1 constFit constScore oneSampleData
      [("p", PVal.nat 1)]
    best_estimator := 0 }

/-! ## Helper lemmas -/

theorem forceNat_eq (n : Nat) (k : Nat → α) : forceNat n k = k n := by
  cases n <;> rfl

theorem npShuffle_length (s : Nat) (l : List α) :
    (npShuffle s l).length = l.length := by
  simp only [npShuffle, List.length_append, List.length_drop, List.length_take]
  omega

theorem npShuffle_countP (s : Nat) (l : List α) (p : α → Bool) :
    (npShuffle s l).countP p = l.countP p := by
  unfold npShuffle
  rw [List.countP_append]
  conv_rhs => rw [← List.take_append_drop (s % (l.length + 1)) l,
    List.countP_append]
  omega

theorem npShuffle_count (s : Nat) (l : List Nat) (c : Nat) :
    (npShuffle s l).count c = l.count c :=
  npShuffle_countP s l (· == c)

theorem npShuffle_mem {a : α} (s : Nat) (l : List α) :
    a ∈ npShuffle s l ↔ a ∈ l := by
  unfold npShuffle
  rw [List.mem_append]
  conv_rhs => rw [← List.take_append_drop (s % (l.length + 1)) l,
    List.mem_append]
  tauto

theorem foldl_max_acc (l : List Nat) (a : Nat) :
    l.foldl max a = max a (l.foldl max 0) := by
  induction l generalizing a with
  | nil => simp
  | cons x xs ih =>
      rw [List.foldl_cons, List.foldl_cons, ih (max a x), ih (max 0 x)]
      simp [Nat.max_assoc]

theorem npShuffle_foldl_max (s : Nat) (l : List Nat) :
    (npShuffle s l).foldl max 0 = l.foldl max 0 := by
  have h1 : (npShuffle s l).foldl max 0
      = max ((l.drop (s % (l.length + 1))).foldl max 0)
          ((l.take (s % (l.length + 1))).foldl max 0) := by
    rw [npShuffle, List.foldl_append,
      foldl_max_acc (l.take (s % (l.length + 1)))]
  have h2 : l.foldl max 0
      = max ((l.take (s % (l.length + 1))).foldl max 0)
          ((l.drop (s % (l.length + 1))).foldl max 0) := by
    conv_lhs => rw [← List.take_append_drop (s % (l.length + 1)) l]
    rw [List.foldl_append, foldl_max_acc (l.drop (s % (l.length + 1)))]
  rw [h1, h2, Nat.max_comm]

theorem length_filter_range_getD (l : List Nat) (c : Nat) :
    ((List.range l.length).filter (fun i => l.getD i 0 == c)).length =
      l.count c := by
  induction l with
  | nil => simp
  | cons a t ih =>
      rw [List.length_cons, List.range_succ_eq_map, List.filter_cons,
        List.filter_map, List.count_cons]
      have hcomp : ((fun i => (a :: t).getD i 0 == c) ∘ Nat.succ) =
          (fun i => t.getD i 0 == c) := rfl
      rw [hcomp]
      by_cases h : a = c
      · simp only [List.getD_cons_zero, h, beq_self_eq_true, if_pos,
          List.length_cons, List.length_map, ih]
      · simp only [List.getD_cons_zero]
        rw [if_neg (by simpa using h)]
        have ih' : (List.filter (fun i => t[i]?.getD 0 == c)
            (List.range t.length)).length = List.count c t := by
          simpa [List.getD] using ih
        simp [ih', h]

theorem of_mem_filter_range {l : List Nat} {c i n : Nat}
    (h : i ∈ (List.range n).filter (fun j => l.getD j 0 == c)) :
    l.getD i 0 = c ∧ i < n := by
  have h' := List.mem_filter.mp h
  exact ⟨beq_iff_eq.mp h'.2, List.mem_range.mp h'.1⟩

theorem count_map_eq_length {l : List Nat} {f : Nat → Nat} {c : Nat}
    (h : ∀ a ∈ l, f a = c) : (l.map f).count c = l.length := by
  induction l with
  | nil => simp
  | cons a t ih =>
      rw [List.map_cons, List.count_cons, ih (fun b hb => h b (by simp [hb]))]
      simp [h a (by simp)]

theorem count_map_eq_zero {l : List Nat} {f : Nat → Nat} {c : Nat}
    (h : ∀ a ∈ l, f a ≠ c) : (l.map f).count c = 0 := by
  induction l with
  | nil => simp
  | cons a t ih =>
      rw [List.map_cons, List.count_cons, ih (fun b hb => h b (by simp [hb]))]
      simp [h a (by simp)]

theorem randRowAux_fst_length (w : Nat) : ∀ (s : Nat) (acc : Row),
    (randRowAux s w acc).1.length = w + acc.length := by
  induction w with
  | zero => intro s acc; simp [randRowAux]
  | succ w ih =>
      intro s acc
      rw [randRowAux, forceNat_eq, ih]
      simp; omega

theorem randRow_fst_length (s w : Nat) : (randRow s w).1.length = w := by
  rw [randRow, randRowAux_fst_length]; rfl

theorem randRowsAux_fst_length (c : Nat) : ∀ (s w : Nat) (acc : List Row),
    (randRowsAux s c w acc).1.length = c + acc.length := by
  induction c with
  | zero => intro s w acc; simp [randRowsAux]
  | succ c ih =>
      intro s w acc
      rw [randRowsAux, forceNat_eq, ih]
      simp; omega

theorem randRows_fst_length (s count w : Nat) :
    (randRows s count w).1.length = count := by
  rw [randRows, randRowsAux_fst_length]; rfl

theorem randRowsAux_fst_rows (c : Nat) : ∀ (s w : Nat) (acc : List Row),
    (∀ r ∈ acc, r.length = w) →
    ∀ r ∈ (randRowsAux s c w acc).1, r.length = w := by
  induction c with
  | zero =>
      intro s w acc hacc r hr
      rw [randRowsAux] at hr
      exact hacc r (List.mem_reverse.mp hr)
  | succ c ih =>
      intro s w acc hacc r hr
      rw [randRowsAux, forceNat_eq] at hr
      refine ih _ w _ ?_ r hr
      intro r' hr'
      rcases List.mem_cons.mp hr' with h | h
      · rw [h]; exact randRow_fst_length s w
      · exact hacc r' h

theorem randRows_fst_rows (s count w : Nat) :
    ∀ r ∈ (randRows s count w).1, r.length = w := by
  rw [randRows]
  exact randRowsAux_fst_rows count s w [] (by simp)

theorem foldl_max_replicate (n v a : Nat) :
    (List.replicate n v).foldl max a = if n = 0 then a else max a v := by
  induction n generalizing a with
  | zero => simp
  | succ n ih =>
      rw [List.replicate_succ, List.foldl_cons, ih (max a v)]
      by_cases h : n = 0
      · simp [h]
      · simp [h, Nat.max_assoc]

/-- The pre-shuffle label vector of the fallback call: clusters of sizes
`[110, 90, 110, 90]` labelled `[0, 1, 0, 1]`. -/
def fallbackYPre : List Nat :=
  ((List.range (2 * 2)).map
    (fun k => List.replicate
      ((clusterSizes 400 [mkRat 11 20, mkRat 9 20] 2 2).getD k 0)
      (k % 2))).flatten

theorem fallbackYPre_eq : fallbackYPre =
    List.replicate 110 0 ++ (List.replicate 90 1 ++
      (List.replicate 110 0 ++ (List.replicate 90 1 ++ []))) := by
  rfl

theorem fallbackYPre_length : fallbackYPre.length = 400 := by
  rw [fallbackYPre_eq]
  simp only [List.length_append, List.length_replicate, List.length_nil]

theorem fallbackYPre_count0 : fallbackYPre.count 0 = 220 := by
  rw [fallbackYPre_eq]
  simp only [List.count_append, List.count_replicate, List.count_nil]
  decide

theorem fallbackYPre_count1 : fallbackYPre.count 1 = 180 := by
  rw [fallbackYPre_eq]
  simp only [List.count_append, List.count_replicate, List.count_nil]
  decide

theorem fallbackYPre_max : fallbackYPre.foldl max 0 = 1 := by
  rw [fallbackYPre_eq]
  rw [List.foldl_append, List.foldl_append, List.foldl_append,
    List.foldl_append]
  simp [foldl_max_replicate]

/-- The label/feature skeleton of the fallback `make_classification` call,
for every seed and ambient generator state: 400 samples, feature rows of
width 10, 220 samples of class 0 and 180 of class 1, and no label beyond 1. -/
theorem make_classification_facts (s g : Nat) :
    (make_classification 400 10 2 2 [mkRat 11 20, mkRat 9 20]
        (some s) g).2.length = 400 ∧
    (make_classification 400 10 2 2 [mkRat 11 20, mkRat 9 20]
        (some s) g).2.count 0 = 220 ∧
    (make_classification 400 10 2 2 [mkRat 11 20, mkRat 9 20]
        (some s) g).2.count 1 = 180 ∧
    (make_classification 400 10 2 2 [mkRat 11 20, mkRat 9 20]
        (some s) g).2.foldl max 0 = 1 ∧
    (make_classification 400 10 2 2 [mkRat 11 20, mkRat 9 20]
        (some s) g).1.length = 400 ∧
    ∀ r ∈ (make_classification 400 10 2 2 [mkRat 11 20, mkRat 9 20]
        (some s) g).1, r.length = 10 := by
  have hmc : make_classification 400 10 2 2 [mkRat 11 20, mkRat 9 20]
      (some s) g =
      (npShuffle (randRows (lcg s) fallbackYPre.length 10).2
        (randRows (lcg s) fallbackYPre.length 10).1,
       npShuffle (randRows (lcg s) fallbackYPre.length 10).2 fallbackYPre) :=
    rfl
  rw [hmc]
  refine ⟨?_, ?_, ?_, ?_, ?_, ?_⟩
  · rw [npShuffle_length, fallbackYPre_length]
  · rw [npShuffle_count, fallbackYPre_count0]
  · rw [npShuffle_count, fallbackYPre_count1]
  · rw [npShuffle_foldl_max, fallbackYPre_max]
  · rw [npShuffle_length, randRows_fst_length]
    exact fallbackYPre_length
  · intro r hr
    exact randRows_fst_rows _ _ _ r ((npShuffle_mem _ _).mp hr)

theorem count_map_countP (f : Nat → Nat) (l : List Nat) (c : Nat) :
    (l.map f).count c = l.countP (fun i => f i == c) := by
  induction l with
  | nil => simp
  | cons a t ih => simp [List.count_cons, List.countP_cons, ih]

theorem shuffled_pair_length (r : Nat) (A B : List α) :
    (npShuffle r ([A, B].flatten)).length = A.length + B.length := by
  rw [npShuffle_length]; simp

theorem shuffled_pair_mem {A B : List α} {r : Nat} {i : α}
    (h : i ∈ npShuffle r ([A, B].flatten)) : i ∈ A ∨ i ∈ B := by
  have h' := (npShuffle_mem _ _).mp h
  simpa using h'

theorem shuffled_pair_count_left (y A B : List Nat) (r c : Nat)
    (hA : ∀ i ∈ A, y.getD i 0 = c) (hB : ∀ i ∈ B, ¬ y.getD i 0 = c) :
    ((npShuffle r ([A, B].flatten)).map (fun i => y.getD i 0)).count c
      = A.length := by
  rw [count_map_countP, npShuffle_countP]
  have hfl : ([A, B] : List (List Nat)).flatten = A ++ (B ++ []) := rfl
  rw [hfl, List.countP_append, List.countP_append]
  have hca : A.countP (fun i => y.getD i 0 == c) = A.length :=
    List.countP_eq_length.mpr (fun a ha => beq_iff_eq.mpr (hA a ha))
  have hcb : B.countP (fun i => y.getD i 0 == c) = 0 :=
    List.countP_eq_zero.mpr (fun b hb => by simpa using hB b hb)
  rw [hca, hcb]
  simp

theorem shuffled_pair_count_right (y A B : List Nat) (r c : Nat)
    (hA : ∀ i ∈ A, ¬ y.getD i 0 = c) (hB : ∀ i ∈ B, y.getD i 0 = c) :
    ((npShuffle r ([A, B].flatten)).map (fun i => y.getD i 0)).count c
      = B.length := by
  rw [count_map_countP, npShuffle_countP]
  have hfl : ([A, B] : List (List Nat)).flatten = A ++ (B ++ []) := rfl
  rw [hfl, List.countP_append, List.countP_append]
  have hca : A.countP (fun i => y.getD i 0 == c) = 0 :=
    List.countP_eq_zero.mpr (fun a ha => by simpa using hA a ha)
  have hcb : B.countP (fun i => y.getD i 0 == c) = B.length :=
    List.countP_eq_length.mpr (fun b hb => beq_iff_eq.mpr (hB b hb))
  rw [hca, hcb]
  simp

/-- Characterization of the stratified index draw on any label vector with
the fallback dataset's class profile (400 labels: 220 zeros, 180 ones):
the train side takes 176 indices of class 0 and 144 of class 1, the test
side the next 44 and 36, each drawn from the per-class index lists. -/
theorem ssi_fallback (y : List Nat) (s g : Nat)
    (hylen : y.length = 400) (hc0 : y.count 0 = 220)
    (hc1 : y.count 1 = 180) (hmax : y.foldl max 0 = 1) :
    stratifiedShuffleIndices y (mkRat 1 5) (some s) g =
    (npShuffle (lcg (lcg (lcg s)))
      ([(npShuffle (lcg (lcg s + 0))
          ((List.range 400).filter (fun i => y.getD i 0 == 0))).take 176,
        (npShuffle (lcg (lcg s + 1))
          ((List.range 400).filter (fun i => y.getD i 0 == 1))).take 144]).flatten,
     npShuffle (lcg (lcg (lcg (lcg s))))
      ([((npShuffle (lcg (lcg s + 0))
          ((List.range 400).filter (fun i => y.getD i 0 == 0))).drop 176).take 44,
        ((npShuffle (lcg (lcg s + 1))
          ((List.range 400).filter (fun i => y.getD i 0 == 1))).drop 144).take 36]).flatten) := by
  have h0m : (0 : Nat) ∈ y :=
    List.count_pos_iff.mp (by rw [hc0]; omega)
  have h1m : (1 : Nat) ∈ y :=
    List.count_pos_iff.mp (by rw [hc1]; omega)
  have hcls : npUnique y = [0, 1] := by
    have hr2 : List.range 2 = [0, 1] := rfl
    unfold npUnique
    rw [hmax, hr2]
    simp [List.filter_cons, h0m, h1m]
  have h80 : (400 * (mkRat 1 5).num.toNat + ((mkRat 1 5).den - 1))
      / (mkRat 1 5).den = 80 := by decide
  have h320 : (400 : Nat) - 80 = 320 := rfl
  have hmapc : List.map (fun c => y.count c) [0, 1] = [220, 180] := by
    simp [hc0, hc1]
  have hni : ∀ r', approximateMode [220, 180] 320 r' = [176, 144] :=
    fun _ => rfl
  have hzipc : List.zipWith (fun a b => a - b) [220, 180] [176, 144]
      = [44, 36] := rfl
  have hti : ∀ r', approximateMode [44, 36] 80 r' = [44, 36] := fun _ => rfl
  have hr2 : List.range 2 = [0, 1] := rfl
  have hder : deriveRng (some s) g = lcg s := rfl
  unfold stratifiedShuffleIndices
  simp only [hylen, hcls, h80, h320, hmapc, hni, hzipc, hti,
    List.length_cons, List.length_nil, hr2, List.map_cons, List.map_nil,
    List.getD_cons_zero, List.getD_cons_succ, hder]

/-- The fallback's stratified split on any dataset with the fallback's class
profile: 320 train rows and 80 test rows, per-class allocations
(176, 144) / (44, 36), feature-row widths preserved. -/
theorem split_fallback (X : List Row) (y : List Nat) (s g : Nat)
    (hXlen : X.length = 400) (hXrows : ∀ r ∈ X, r.length = 10)
    (hylen : y.length = 400) (hc0 : y.count 0 = 220)
    (hc1 : y.count 1 = 180) (hmax : y.foldl max 0 = 1) :
    (train_test_split X y (mkRat 1 5) (some s) g).y_train.length = 320 ∧
    (train_test_split X y (mkRat 1 5) (some s) g).y_test.length = 80 ∧
    (train_test_split X y (mkRat 1 5) (some s) g).X_train.length = 320 ∧
    (train_test_split X y (mkRat 1 5) (some s) g).X_test.length = 80 ∧
    (train_test_split X y (mkRat 1 5) (some s) g).y_train.count 0 = 176 ∧
    (train_test_split X y (mkRat 1 5) (some s) g).y_train.count 1 = 144 ∧
    (train_test_split X y (mkRat 1 5) (some s) g).y_test.count 0 = 44 ∧
    (train_test_split X y (mkRat 1 5) (some s) g).y_test.count 1 = 36 ∧
    (∀ r ∈ (train_test_split X y (mkRat 1 5) (some s) g).X_train,
      r.length = 10) ∧
    (∀ r ∈ (train_test_split X y (mkRat 1 5) (some s) g).X_test,
      r.length = 10) := by
  have hssi := ssi_fallback y s g hylen hc0 hc1 hmax
  have hidx0 : ((List.range 400).filter (fun i => y.getD i 0 == 0)).length
      = 220 := by
    rw [← hylen, length_filter_range_getD]; exact hc0
  have hidx1 : ((List.range 400).filter (fun i => y.getD i 0 == 1)).length
      = 180 := by
    rw [← hylen, length_filter_range_getD]; exact hc1
  -- the four building blocks of the index lists
  have ht0len : ((npShuffle (lcg (lcg s + 0))
      ((List.range 400).filter (fun i => y.getD i 0 == 0))).take 176).length
      = 176 := by
    rw [List.length_take, npShuffle_length, hidx0]; omega
  have ht1len : ((npShuffle (lcg (lcg s + 1))
      ((List.range 400).filter (fun i => y.getD i 0 == 1))).take 144).length
      = 144 := by
    rw [List.length_take, npShuffle_length, hidx1]; omega
  have hu0len : (((npShuffle (lcg (lcg s + 0))
      ((List.range 400).filter (fun i => y.getD i 0 == 0))).drop 176).take
        44).length = 44 := by
    rw [List.length_take, List.length_drop, npShuffle_length, hidx0]; omega
  have hu1len : (((npShuffle (lcg (lcg s + 1))
      ((List.range 400).filter (fun i => y.getD i 0 == 1))).drop 144).take
        36).length = 36 := by
    rw [List.length_take, List.length_drop, npShuffle_length, hidx1]; omega
  have ht0mem : ∀ i ∈ (npShuffle (lcg (lcg s + 0))
      ((List.range 400).filter (fun i => y.getD i 0 == 0))).take 176,
      y.getD i 0 = 0 ∧ i < 400 := fun i hi =>
    of_mem_filter_range ((npShuffle_mem _ _).mp (List.mem_of_mem_take hi))
  have ht1mem : ∀ i ∈ (npShuffle (lcg (lcg s + 1))
      ((List.range 400).filter (fun i => y.getD i 0 == 1))).take 144,
      y.getD i 0 = 1 ∧ i < 400 := fun i hi =>
    of_mem_filter_range ((npShuffle_mem _ _).mp (List.mem_of_mem_take hi))
  have hu0mem : ∀ i ∈ ((npShuffle (lcg (lcg s + 0))
      ((List.range 400).filter (fun i => y.getD i 0 == 0))).drop 176).take 44,
      y.getD i 0 = 0 ∧ i < 400 := fun i hi =>
    of_mem_filter_range ((npShuffle_mem _ _).mp
      (List.mem_of_mem_drop (List.mem_of_mem_take hi)))
  have hu1mem : ∀ i ∈ ((npShuffle (lcg (lcg s + 1))
      ((List.range 400).filter (fun i => y.getD i 0 == 1))).drop 144).take 36,
      y.getD i 0 = 1 ∧ i < 400 := fun i hi =>
    of_mem_filter_range ((npShuffle_mem _ _).mp
      (List.mem_of_mem_drop (List.mem_of_mem_take hi)))
  have htr : (train_test_split X y (mkRat 1 5) (some s) g).y_train
      = (stratifiedShuffleIndices y (mkRat 1 5) (some s) g).1.map
          (fun i => y.getD i 0) := by simp only [train_test_split]
  have hte : (train_test_split X y (mkRat 1 5) (some s) g).y_test
      = (stratifiedShuffleIndices y (mkRat 1 5) (some s) g).2.map
          (fun i => y.getD i 0) := by simp only [train_test_split]
  have hXtr : (train_test_split X y (mkRat 1 5) (some s) g).X_train
      = (stratifiedShuffleIndices y (mkRat 1 5) (some s) g).1.map
          (fun i => X.getD i []) := by simp only [train_test_split]
  have hXte : (train_test_split X y (mkRat 1 5) (some s) g).X_test
      = (stratifiedShuffleIndices y (mkRat 1 5) (some s) g).2.map
          (fun i => X.getD i []) := by simp only [train_test_split]
  have hXrow : ∀ i : Nat, i < 400 → (X.getD i []).length = 10 := by
    intro i hi
    have hi' : i < X.length := by omega
    rw [List.getD_eq_getElem X [] hi']
    exact hXrows _ (List.getElem_mem hi')
  rw [htr, hte, hXtr, hXte, hssi]
  refine ⟨?_, ?_, ?_, ?_, ?_, ?_, ?_, ?_, ?_, ?_⟩
  · rw [List.length_map, shuffled_pair_length, ht0len, ht1len]
  · rw [List.length_map, shuffled_pair_length, hu0len, hu1len]
  · rw [List.length_map, shuffled_pair_length, ht0len, ht1len]
  · rw [List.length_map, shuffled_pair_length, hu0len, hu1len]
  · rw [shuffled_pair_count_left y _ _ _ 0
      (fun i hi => (ht0mem i hi).1)
      (fun i hi => by rw [(ht1mem i hi).1]; simp), ht0len]
  · rw [shuffled_pair_count_right y _ _ _ 1
      (fun i hi => by rw [(ht0mem i hi).1]; simp)
      (fun i hi => (ht1mem i hi).1), ht1len]
  · rw [shuffled_pair_count_left y _ _ _ 0
      (fun i hi => (hu0mem i hi).1)
      (fun i hi => by rw [(hu1mem i hi).1]; simp), hu0len]
  · rw [shuffled_pair_count_right y _ _ _ 1
      (fun i hi => by rw [(hu0mem i hi).1]; simp)
      (fun i hi => (hu1mem i hi).1), hu1len]
  · intro r hr
    rcases List.mem_map.mp hr with ⟨i, hi, hri⟩
    rcases shuffled_pair_mem hi with h | h
    · rw [← hri]; exact hXrow i (ht0mem i h).2
    · rw [← hri]; exact hXrow i (ht1mem i h).2
  · intro r hr
    rcases List.mem_map.mp hr with ⟨i, hi, hri⟩
    rcases shuffled_pair_mem hi with h | h
    · rw [← hri]; exact hXrow i (hu0mem i h).2
    · rw [← hri]; exact hXrow i (hu1mem i h).2

/-- Shape facts of the synthetic fallback bundle, for every seed and ambient
generator state: 320/80 train/test rows, per-class counts (176, 144) and
(44, 36), and 10 features per row throughout. -/
theorem syntheticDataset_facts (s g : Nat) :
    (syntheticDataset s g).y_train.length = 320 ∧
    (syntheticDataset s g).y_test.length = 80 ∧
    (syntheticDataset s g).X_train.length = 320 ∧
    (syntheticDataset s g).X_test.length = 80 ∧
    (syntheticDataset s g).y_train.count 0 = 176 ∧
    (syntheticDataset s g).y_train.count 1 = 144 ∧
    (syntheticDataset s g).y_test.count 0 = 44 ∧
    (syntheticDataset s g).y_test.count 1 = 36 ∧
    (∀ r ∈ (syntheticDataset s g).X_train, r.length = 10) ∧
    (∀ r ∈ (syntheticDataset s g).X_test, r.length = 10) := by
  obtain ⟨hylen, hc0, hc1, hmax, hXlen, hXrows⟩ := make_classification_facts s g
  have hsplit := split_fallback
    (make_classification 400 10 2 2 [mkRat 11 20, mkRat 9 20] (some s) g).1
    (make_classification 400 10 2 2 [mkRat 11 20, mkRat 9 20] (some s) g).2
    s g hXlen hXrows hylen hc0 hc1 hmax
  simp only [syntheticDataset]
  exact hsplit

theorem argmaxGo_mem {C : Type} (f : C → ℚ) (l : List C) :
    ∀ b : C, argmaxGo f b l = b ∨ argmaxGo f b l ∈ l := by
  induction l with
  | nil => intro b; left; rfl
  | cons c cs ih =>
      intro b
      rw [argmaxGo]
      rcases ih (if f c > f b then c else b) with h | h
      · rw [h]
        by_cases hlt : f c > f b
        · rw [if_pos hlt]; right; exact List.mem_cons_self c cs
        · rw [if_neg hlt]; left; rfl
      · right; exact List.mem_cons_of_mem c h

theorem argmaxGo_ge_best {C : Type} (f : C → ℚ) (l : List C) :
    ∀ b : C, f b ≤ f (argmaxGo f b l) := by
  induction l with
  | nil => intro b; exact le_refl _
  | cons c cs ih =>
      intro b
      rw [argmaxGo]
      refine le_trans ?_ (ih (if f c > f b then c else b))
      by_cases hlt : f c > f b
      · rw [if_pos hlt]; exact le_of_lt hlt
      · rw [if_neg hlt]

theorem argmaxGo_ge {C : Type} (f : C → ℚ) (l : List C) :
    ∀ (b : C), ∀ x ∈ l, f x ≤ f (argmaxGo f b l) := by
  induction l with
  | nil => intro b x hx; exact absurd hx (by simp)
  | cons c cs ih =>
      intro b x hx
      rw [argmaxGo]
      rcases List.mem_cons.mp hx with h | h
      · subst h
        refine le_trans ?_ (argmaxGo_ge_best f cs (if f x > f b then x else b))
        by_cases hlt : f x > f b
        · rw [if_pos hlt]
        · rw [if_neg hlt]; exact not_lt.mp hlt
      · exact ih (if f c > f b then c else b) x h

theorem argmaxFirst_mem {C : Type} {f : C → ℚ} {l : List C} {b : C}
    (h : argmaxFirst f l = some b) : b ∈ l := by
  cases l with
  | nil => rw [argmaxFirst] at h; simp at h
  | cons c cs =>
      rw [argmaxFirst] at h
      have hb : argmaxGo f c cs = b := by simpa using h
      subst hb
      rcases argmaxGo_mem f cs c with h' | h'
      · rw [h']; exact List.mem_cons_self c cs
      · exact List.mem_cons_of_mem c h'

theorem argmaxFirst_le {C : Type} {f : C → ℚ} {l : List C} {b : C}
    (h : argmaxFirst f l = some b) : ∀ c ∈ l, f c ≤ f b := by
  cases l with
  | nil => intro x hx; exact absurd hx (by simp)
  | cons c cs =>
      rw [argmaxFirst] at h
      have hb : argmaxGo f c cs = b := by simpa using h
      subst hb
      intro x hx
      rcases List.mem_cons.mp hx with h' | h'
      · rw [h']; exact argmaxGo_ge_best f cs c
      · exact argmaxGo_ge f cs c x h'

/-- The loader returns in exactly one of three ways: all four artifacts
well-formed and returned as stored, the all-synthetic bundle, or the
propagated malformed-artifact error. -/
theorem load_or_create_cases (st : Storage) (rs g : Nat) :
    (∃ v1 v2 v3 v4,
      st.x_train_file = FileState.good v1 ∧
      st.x_test_file = FileState.good v2 ∧
      st.y_train_file = FileState.good v3 ∧
      st.y_test_file = FileState.good v4 ∧
      load_or_create_demo_data st rs g
        = Except.ok (Dataset.mk v1 v2 v3 v4)) ∨
    load_or_create_demo_data st rs g
      = Except.ok (syntheticDataset rs g) ∨
    load_or_create_demo_data st rs g
      = Except.error PyError.otherError := by
  rcases st with ⟨f1, f2, f3, f4, f5⟩
  cases f1 <;> cases f2 <;> cases f3 <;> cases f4 <;>
    first
      | exact Or.inl ⟨_, _, _, _, rfl, rfl, rfl, rfl, rfl⟩
      | exact Or.inr (Or.inl rfl)
      | exact Or.inr (Or.inr rfl)

/-! ## Claims -/

/-- C1: for every pair of already-fitted models and every held-out evaluation
set, the Section-6 step persists the candidate to the canonical best-model
path if and only if the candidate's test accuracy is ≥ the incumbent's; an
exact tie persists the candidate, and a strictly worse candidate leaves the
storage untouched. -/
theorem C1_persist_iff (old_model new_model : SkModel) (X_test : List Row)
    (y_test : List Nat) (st : Storage) :
    ((compare_and_save old_model new_model X_test y_test st).2 = true ↔
      accuracy_score y_test (X_test.map new_model.predict) ≥
        accuracy_score y_test (X_test.map old_model.predict)) ∧
    ((compare_and_save old_model new_model X_test y_test st).2 = true →
      (compare_and_save old_model new_model X_test y_test st).1.best_model_file
        = FileState.good new_model) ∧
    ((compare_and_save old_model new_model X_test y_test st).2 = false →
      (compare_and_save old_model new_model X_test y_test st).1 = st) ∧
    (accuracy_score y_test (X_test.map new_model.predict) =
        accuracy_score y_test (X_test.map old_model.predict) →
      (compare_and_save old_model new_model X_test y_test st).2 = true) ∧
    (accuracy_score y_test (X_test.map new_model.predict) <
        accuracy_score y_test (X_test.map old_model.predict) →
      (compare_and_save old_model new_model X_test y_test st).1 = st) := by
  by_cases h : accuracy_score y_test (X_test.map new_model.predict) ≥
      accuracy_score y_test (X_test.map old_model.predict)
  · refine ⟨?_, ?_, ?_, ?_, ?_⟩
    · simp [compare_and_save, h]
    · intro _; simp [compare_and_save, h]
    · intro hf; exact absurd hf (by simp [compare_and_save, h])
    · intro _; simp [compare_and_save, h]
    · intro hlt; exact absurd h (not_le.mpr hlt)
  · refine ⟨?_, ?_, ?_, ?_, ?_⟩
    · simp [compare_and_save, h]
    · intro ht; exact absurd ht (by simp [compare_and_save, h])
    · intro _; simp [compare_and_save, h]
    · intro heq; exact absurd (ge_of_eq heq) h
    · intro _; simp [compare_and_save, h]

/-- Witness for C1 at a concrete tie (identical models): the candidate is
persisted and the canonical path now holds it. -/
theorem C1_persist_iff_witness :
    (compare_and_save default_rf default_rf [] [] emptyStorage).2 = true ∧
    (compare_and_save default_rf default_rf [] []
      emptyStorage).1.best_model_file = FileState.good default_rf := by
  have h := C1_persist_iff default_rf default_rf [] [] emptyStorage
  have hsaved := h.1.mpr (le_refl _)
  exact ⟨hsaved, h.2.1 hsaved⟩

/-- C3: across a compare-and-persist run whose incumbent was loaded from the
best-model path, that path afterwards holds either the incumbent unchanged or
a replacement whose test accuracy is at least the incumbent's — the overwrite
never strictly decreases the persisted model's test accuracy. -/
theorem C3_no_regress (old_model new_model : SkModel) (X_test : List Row)
    (y_test : List Nat) (st : Storage)
    (hinc : st.best_model_file = FileState.good old_model) :
    (compare_and_save old_model new_model X_test y_test st).1.best_model_file
      = FileState.good old_model ∨
    ((compare_and_save old_model new_model X_test y_test st).1.best_model_file
      = FileState.good new_model ∧
     accuracy_score y_test (X_test.map new_model.predict) ≥
       accuracy_score y_test (X_test.map old_model.predict)) := by
  by_cases h : accuracy_score y_test (X_test.map new_model.predict) ≥
      accuracy_score y_test (X_test.map old_model.predict)
  · exact Or.inr ⟨by simp [compare_and_save, h], h⟩
  · exact Or.inl (by simp [compare_and_save, h, hinc])

/-- Witness for C3 at a concrete storage holding a trained incumbent. -/
theorem C3_no_regress_witness :
    (compare_and_save trained_rf trained_rf [] []
      trainedModelStorage).1.best_model_file = FileState.good trained_rf ∨
    ((compare_and_save trained_rf trained_rf [] []
      trainedModelStorage).1.best_model_file = FileState.good trained_rf ∧
     accuracy_score [] (([] : List Row).map trained_rf.predict) ≥
       accuracy_score [] (([] : List Row).map trained_rf.predict)) :=
  C3_no_regress trained_rf trained_rf [] [] trainedModelStorage rfl

/-- C2 counterexample: the model loader does **not** raise on a malformed
(present-but-corrupt) artifact — `safe_load_model` catches every exception
and silently substitutes the caller-supplied default, so the claim's "raises
rather than silently substituting the default, for both loaders" fails at
this concrete input. -/
theorem C2_counterexample :
    safe_load_model FileState.corrupt default_rf = default_rf ∧
    FileState.corrupt ≠ (FileState.absent : FileState SkModel) := by
  exact ⟨rfl, by simp⟩

/-- C2 (amended): the dataset loader propagates a malformed-artifact error —
only file-not-found triggers its synthetic fallback — while the model loader
substitutes the caller-supplied default on every load failure, malformed
included. -/
theorem C2_amended (st : Storage) (rs g : Nat) (d : SkModel) :
    (st.x_train_file = FileState.corrupt →
      load_or_create_demo_data st rs g = Except.error PyError.otherError) ∧
    (∀ v1, st.x_train_file = FileState.good v1 →
      st.x_test_file = FileState.corrupt →
      load_or_create_demo_data st rs g = Except.error PyError.otherError) ∧
    (∀ v1 v2, st.x_train_file = FileState.good v1 →
      st.x_test_file = FileState.good v2 →
      st.y_train_file = FileState.corrupt →
      load_or_create_demo_data st rs g = Except.error PyError.otherError) ∧
    (∀ v1 v2 v3, st.x_train_file = FileState.good v1 →
      st.x_test_file = FileState.good v2 →
      st.y_train_file = FileState.good v3 →
      st.y_test_file = FileState.corrupt →
      load_or_create_demo_data st rs g = Except.error PyError.otherError) ∧
    (safe_load_model FileState.corrupt d = d) ∧
    (safe_load_model FileState.absent d = d) := by
  refine ⟨?_, ?_, ?_, ?_, rfl, rfl⟩
  · intro h1
    simp [load_or_create_demo_data, h1, loadFile]
  · intro v1 h1 h2
    simp [load_or_create_demo_data, h1, h2, loadFile]
  · intro v1 v2 h1 h2 h3
    simp [load_or_create_demo_data, h1, h2, h3, loadFile]
  · intro v1 v2 v3 h1 h2 h3 h4
    simp [load_or_create_demo_data, h1, h2, h3, h4, loadFile]

/-- Witness for the amended C2: a malformed train-features artifact aborts
the dataset loader with the non-not-found error, while the model loader
swallows a malformed model file and returns the default. -/
theorem C2_amended_witness :
    load_or_create_demo_data corruptXStorage 42 0
      = Except.error PyError.otherError ∧
    safe_load_model FileState.corrupt default_rf = default_rf :=
  ⟨(C2_amended corruptXStorage 42 0 default_rf).1 rfl,
   (C2_amended corruptXStorage 42 0 default_rf).2.2.2.2.1⟩

/-- C4: the synthetic fallback is deterministic — when the first dataset
artifact is missing, two invocations with the same seed but arbitrarily
different ambient generator states return the same (bit-identical) feature
matrices, label vectors and train/test partitions. -/
theorem C4_deterministic (rs g1 g2 : Nat) (st : Storage)
    (habs : st.x_train_file = FileState.absent) :
    load_or_create_demo_data st rs g1 = load_or_create_demo_data st rs g2 ∧
    load_or_create_demo_data st rs g1
      = Except.ok (syntheticDataset rs g1) ∧
    syntheticDataset rs g1 = syntheticDataset rs g2 := by
  have hsyn : syntheticDataset rs g1 = syntheticDataset rs g2 := rfl
  have h1 : load_or_create_demo_data st rs g1
      = Except.ok (syntheticDataset rs g1) := by
    simp [load_or_create_demo_data, habs, loadFile]
  have h2 : load_or_create_demo_data st rs g2
      = Except.ok (syntheticDataset rs g2) := by
    simp [load_or_create_demo_data, habs, loadFile]
  exact ⟨by rw [h1, h2, hsyn], h1, hsyn⟩

/-- Witness for C4 at seed 42 and two different ambient generator states. -/
theorem C4_deterministic_witness :
    load_or_create_demo_data emptyStorage 42 0
      = load_or_create_demo_data emptyStorage 42 12345 :=
  (C4_deterministic 42 0 12345 emptyStorage rfl).1

/-- C5: when the model resolver falls back to the freshly-constructed default
(best-model file absent — or unreadable, which the broad catch treats the
same way), the Section-1 guard fits it on the training partition; when the
resolver returns a loaded, previously-trained model, the guard leaves it
untouched; and both baseline accuracies are computed only on the post-guard
model. -/
theorem C5_fit_guard (st : Storage) (X_train : List Row)
    (y_train : List Nat) :
    ((st.best_model_file = FileState.absent ∨
        st.best_model_file = FileState.corrupt) →
      resolve_and_fit_old_model st X_train y_train
        = default_rf.fit X_train y_train) ∧
    (∀ m : SkModel, st.best_model_file = FileState.good m →
      m.trainedOn.isSome = true →
      resolve_and_fit_old_model st X_train y_train = m) ∧
    (∀ d : Dataset, section1_metrics st d
      = (resolve_and_fit_old_model st d.X_train d.y_train,
         accuracy_score d.y_train (d.X_train.map
           (resolve_and_fit_old_model st d.X_train d.y_train).predict),
         accuracy_score d.y_test (d.X_test.map
           (resolve_and_fit_old_model st d.X_train d.y_train).predict))) := by
  refine ⟨?_, ?_, ?_⟩
  · rintro (h | h) <;>
      simp [resolve_and_fit_old_model, safe_load_model, loadFile, h,
        has_feature_importances, isinstance_rf, default_rf]
  · rintro ⟨fam, rs, tr⟩ hm htr
    cases fam <;>
      simp [resolve_and_fit_old_model, safe_load_model, loadFile, hm,
        has_feature_importances, isinstance_rf, htr]
  · intro d
    simp only [section1_metrics]

/-- Witness for C5: absent incumbent gets fitted; a loaded trained model is
returned as-is without refitting. -/
theorem C5_fit_guard_witness :
    resolve_and_fit_old_model emptyStorage [] []
      = default_rf.fit [] [] ∧
    resolve_and_fit_old_model trainedModelStorage [] [] = trained_rf :=
  ⟨(C5_fit_guard emptyStorage [] []).1 (Or.inl rfl),
   (C5_fit_guard trainedModelStorage [] []).2.1 trained_rf rfl rfl⟩

/-- C6: with the dataset artifacts absent and the default seed 42, the
fallback returns the synthetic bundle: 400 samples in total with 10 features
each, class totals 220/180 (the [0.55, 0.45] weights applied to 400), and an
80/20 stratified split of exactly 320 train and 80 test samples — for every
ambient generator state. -/
theorem C6_fallback_shape (g : Nat) :
    load_or_create_demo_data emptyStorage 42 g
      = Except.ok (syntheticDataset 42 g) ∧
    (syntheticDataset 42 g).X_train.length = 320 ∧
    (syntheticDataset 42 g).X_test.length = 80 ∧
    (syntheticDataset 42 g).y_train.length = 320 ∧
    (syntheticDataset 42 g).y_test.length = 80 ∧
    (syntheticDataset 42 g).y_train.length
      + (syntheticDataset 42 g).y_test.length = 400 ∧
    (syntheticDataset 42 g).y_train.count 0
      + (syntheticDataset 42 g).y_test.count 0 = 220 ∧
    (syntheticDataset 42 g).y_train.count 1
      + (syntheticDataset 42 g).y_test.count 1 = 180 ∧
    (syntheticDataset 42 g).X_train.all (fun r => r.length == 10) = true ∧
    (syntheticDataset 42 g).X_test.all (fun r => r.length == 10) = true := by
  obtain ⟨h1, h2, h3, h4, h5, h6, h7, h8, h9, h10⟩ :=
    syntheticDataset_facts 42 g
  refine ⟨?_, h3, h4, h1, h2, ?_, ?_, ?_, ?_, ?_⟩
  · simp [load_or_create_demo_data, emptyStorage, loadFile]
  · rw [h1, h2]
  · rw [h5, h7]
  · rw [h6, h8]
  · exact List.all_eq_true.mpr (fun r hr => beq_iff_eq.mpr (h9 r hr))
  · exact List.all_eq_true.mpr (fun r hr => beq_iff_eq.mpr (h10 r hr))

/-- C7: for every synthetic dataset produced by the fallback (any seed, any
ambient generator state), the stratified 80/20 split preserves each class's
proportion between the train and test partitions exactly — in particular to
within one sample per class: train holds (176, 144) and test (44, 36) of the
(220, 180) class totals, and each partition's per-class count differs from
the exact proportional share by at most one sample. -/
theorem C7_stratified_proportions (s g : Nat) :
    (syntheticDataset s g).y_train.count 0 = 176 ∧
    (syntheticDataset s g).y_train.count 1 = 144 ∧
    (syntheticDataset s g).y_test.count 0 = 44 ∧
    (syntheticDataset s g).y_test.count 1 = 36 ∧
    (((syntheticDataset s g).y_train.count 0 : ℚ) / 320
      = ((syntheticDataset s g).y_test.count 0 : ℚ) / 80) ∧
    (((syntheticDataset s g).y_train.count 1 : ℚ) / 320
      = ((syntheticDataset s g).y_test.count 1 : ℚ) / 80) ∧
    |((syntheticDataset s g).y_train.count 0 : ℚ)
      - (4 / 5) * ((((syntheticDataset s g).y_train.count 0
        + (syntheticDataset s g).y_test.count 0 : Nat)) : ℚ)| ≤ 1 ∧
    |((syntheticDataset s g).y_test.count 0 : ℚ)
      - (1 / 5) * ((((syntheticDataset s g).y_train.count 0
        + (syntheticDataset s g).y_test.count 0 : Nat)) : ℚ)| ≤ 1 ∧
    |((syntheticDataset s g).y_train.count 1 : ℚ)
      - (4 / 5) * ((((syntheticDataset s g).y_train.count 1
        + (syntheticDataset s g).y_test.count 1 : Nat)) : ℚ)| ≤ 1 ∧
    |((syntheticDataset s g).y_test.count 1 : ℚ)
      - (1 / 5) * ((((syntheticDataset s g).y_train.count 1
        + (syntheticDataset s g).y_test.count 1 : Nat)) : ℚ)| ≤ 1 := by
  obtain ⟨_, _, _, _, h5, h6, h7, h8, _, _⟩ := syntheticDataset_facts s g
  refine ⟨h5, h6, h7, h8, ?_, ?_, ?_, ?_, ?_, ?_⟩ <;>
    simp only [h5, h6, h7, h8] <;> norm_num

/-- C8: for every finite hyperparameter grid, training set, fold count and
scoring criterion, a successful grid-search fit selects its best combination
from the Cartesian product of the grid, returns a best score that is ≥ the
mean cross-validation score of every combination in that product (computed on
the training data only), and refits the returned estimator on the full
training set with the best combination. -/
theorem C8_grid_search_best {M : Type} (grid : List (String × List PVal))
    (cv : Nat) (fitWith : ParamCombo → List Sample → M)
    (score : M → List Sample → ℚ) (data : List Sample)
    (out : GridSearchOut ParamCombo M)
    (hout : gridSearchCV_fit (gridCombos grid) cv fitWith score data
      = Except.ok out) :
    out.best_params ∈ gridCombos grid ∧
    (∀ c ∈ gridCombos grid,
      cvMeanScore cv fitWith score data c ≤ out.best_score) ∧
    out.best_score = cvMeanScore cv fitWith score data out.best_params ∧
    out.best_estimator = fitWith out.best_params data := by
  unfold gridSearchCV_fit at hout
  split at hout
  · simp at hout
  · rcases harg : argmaxFirst (cvMeanScore cv fitWith score data)
        (gridCombos grid) with _ | best
    · rw [harg] at hout; simp at hout
    · rw [harg] at hout
      simp only [Except.ok.injEq] at hout
      subst hout
      exact ⟨argmaxFirst_mem harg,
        fun c hc => argmaxFirst_le harg c hc, rfl, rfl⟩

/-- Witness for C8 on a one-point grid with a constant scorer. -/
theorem C8_grid_search_best_witness :
    onePointOut.best_params ∈ gridCombos onePointGrid ∧
    (∀ c ∈ gridCombos onePointGrid,
      cvMeanScore 1 constFit constScore oneSampleData c
        ≤ onePointOut.best_score) ∧
    onePointOut.best_score
      = cvMeanScore 1 constFit constScore oneSampleData
          onePointOut.best_params ∧
    onePointOut.best_estimator = constFit onePointOut.best_params
      oneSampleData :=
  C8_grid_search_best onePointGrid 1 constFit constScore oneSampleData
    onePointOut rfl

/-- C9: whenever the training set is smaller than the configured fold count,
the grid-search fit fails with the configuration (`ValueError`) error, and
the failure is independent of the training and scoring routines — no training
work is consulted before the error. The notebook calls `fit` unguarded, so
the error surfaces to the caller. -/
theorem C9_config_error {C M : Type} (param_combos : List C) (cv : Nat)
    (fitWith : C → List Sample → M) (score : M → List Sample → ℚ)
    (data : List Sample) (hsize : data.length < cv) :
    gridSearchCV_fit param_combos cv fitWith score data
      = Except.error PyError.valueError ∧
    (∀ (fitWith' : C → List Sample → M) (score' : M → List Sample → ℚ),
      gridSearchCV_fit param_combos cv fitWith' score' data
        = Except.error PyError.valueError) := by
  constructor
  · unfold gridSearchCV_fit; rw [if_pos hsize]
  · intro fitWith' score'
    unfold gridSearchCV_fit; rw [if_pos hsize]

/-- Witness for C9: an empty training set with `cv = 3` (the notebook's fold
count) fails fast with the configuration error. -/
theorem C9_config_error_witness :
    gridSearchCV_fit (gridCombos rf_param_grid) 3 constFit constScore []
      = Except.error PyError.valueError :=
  (C9_config_error (gridCombos rf_param_grid) 3 constFit constScore []
    (by decide)).1

/-- C10: the dataset resolver treats the four artifacts as one atomic
bundle — whenever it returns a quadruple, either all four artifacts were
present and well-formed and are returned exactly as stored, or the returned
quadruple is entirely the synthetic one; a partially present artifact set
never yields a mix of loaded and generated artifacts. -/
theorem C10_atomic_bundle (st : Storage) (rs g : Nat) (d : Dataset)
    (h : load_or_create_demo_data st rs g = Except.ok d) :
    (st.x_train_file = FileState.good d.X_train ∧
     st.x_test_file = FileState.good d.X_test ∧
     st.y_train_file = FileState.good d.y_train ∧
     st.y_test_file = FileState.good d.y_test) ∨
    d = syntheticDataset rs g := by
  rcases load_or_create_cases st rs g with
    ⟨v1, v2, v3, v4, e1, e2, e3, e4, hload⟩ | hload | hload
  · rw [hload, Except.ok.injEq] at h
    subst h
    exact Or.inl ⟨e1, e2, e3, e4⟩
  · rw [hload, Except.ok.injEq] at h
    exact Or.inr h.symm
  · rw [hload] at h
    exact Except.noConfusion h

/-- Witness for C10: with all four artifacts present and well-formed, the
returned quadruple is exactly the stored one. -/
theorem C10_atomic_bundle_witness :
    (allGoodStorage.x_train_file
        = FileState.good (Dataset.mk [[1]] [[2]] [0] [1]).X_train ∧
     allGoodStorage.x_test_file
        = FileState.good (Dataset.mk [[1]] [[2]] [0] [1]).X_test ∧
     allGoodStorage.y_train_file
        = FileState.good (Dataset.mk [[1]] [[2]] [0] [1]).y_train ∧
     allGoodStorage.y_test_file
        = FileState.good (Dataset.mk [[1]] [[2]] [0] [1]).y_test) ∨
    (Dataset.mk [[1]] [[2]] [0] [1]) = syntheticDataset 42 0 :=
  C10_atomic_bundle allGoodStorage 42 0 (Dataset.mk [[1]] [[2]] [0] [1]) rfl

end Stedi
